import Mathlib

/-!
Verification development for a personal finance tracker.

The development shallowly embeds the transaction categorization and
financial-metrics aggregation pipeline of the tracker: the category taxonomy,
the keyword fallback classifiers, the batch classification orchestrator, the
monthly-totals aggregation, budget variance, KPI computation and the monthly
trend series. Monetary amounts are modelled as rationals, dates at day
granularity as (year, month, day) triples compared chronologically, and the
external AI classifier as an explicit function parameter returning an optional
response (failure of the HTTP call or an unparseable body is the none case).
-/

namespace FinTrack

/-- Transaction type: income or expense (the source's string enum). -/
inductive TxType where
  | income
  | expense
deriving DecidableEq, Repr

/-- Calendar date at day granularity (year, month, day).
JS Date comparison on dates without time-of-day is chronological comparison
of these triples. -/
structure SDate where
  y : Nat
  m : Nat
  d : Nat
deriving DecidableEq, Repr

/-- Chronological order on dates: the embedding of comparing two JS Dates
at day granularity. -/
def dateLeB (a b : SDate) : Bool :=
  decide (a.y < b.y) ||
    (a.y == b.y && (decide (a.m < b.m) || (a.m == b.m && decide (a.d ≤ b.d))))

/-- A transaction record. `category`/`subcategory` are optional (absent on
freshly imported rows), matching the edge function's Transaction interface. -/
structure Tx where
  id : String
  date : SDate
  description : String
  amount : ℚ
  category : Option String
  subcategory : Option String
  type : TxType
deriving DecidableEq, Repr

/-- A budget row: a planned amount for one category in one calendar month.
The source's YYYY-MM month string is embedded as the (year, month) pair. -/
structure Budget where
  category : String
  amount : ℚ
  month : Nat × Nat
deriving DecidableEq, Repr

/-- Result record of calculateMonthlyTotals. -/
structure MonthlyData where
  month : Nat × Nat
  income : ℚ
  expenses : ℚ
  budgetedIncome : ℚ
  budgetedExpenses : ℚ
deriving DecidableEq, Repr

/-- Lower-casing a string character by character, embedding
String.prototype.toLowerCase on the keyword alphabet used by the source. -/
def lowerStr (s : String) : String :=
  ⟨s.data.map Char.toLower⟩

/-- Does the needle occur as a prefix of the haystack (both as char lists)? -/
def hasPrefixL : List Char → List Char → Bool
  | _, [] => true
  | [], _ :: _ => false
  | a :: as, b :: bs => a == b && hasPrefixL as bs

/-- Substring containment on char lists: String.prototype.includes. -/
def containsSubL : List Char → List Char → Bool
  | [], n => n.isEmpty
  | h :: t, n => hasPrefixL (h :: t) n || containsSubL t n

/-- String.prototype.includes: does `h` contain `n` as a substring? -/
def containsStr (h n : String) : Bool :=
  containsSubL h.data n.data

/-- The expense category tree of src/data/categories.ts: category name to
ordered subcategory list, in the source's insertion order. -/
def EXPENSE_CATEGORIES : List (String × List String) :=
  [("Living Expenses",
    ["Grocery", "Maids", "Fruits & Vegetables", "Food", "Household Items",
     "Utilities", "Electricity", "Gas", "Water", "Internet", "Phone",
     "Personal Care", "Toiletries", "Laundry", "Kitchen Supplies"]),
   ("Rental",
    ["House Rent", "Apartment Rent", "Office Rent", "Parking Rent",
     "Storage Rent", "Equipment Rent"]),
   ("Debt",
    ["Car Loan", "Home Loan", "Personal Loan", "Credit Card Payment",
     "Student Loan", "Business Loan", "EMI", "Interest Payment"]),
   ("Education",
    ["School Fees", "Tuition", "College Fees", "Training", "Courses",
     "Books", "Educational Materials", "Exam Fees", "Coaching"]),
   ("Healthcare",
    ["Medical Bills", "Doctor Consultation", "Medicine", "Hospital",
     "Dental", "Health Insurance", "Lab Tests", "Surgery", "Therapy"]),
   ("Transportation",
    ["Fuel", "Car Maintenance", "Public Transport", "Taxi", "Uber",
     "Bus", "Train", "Flight", "Car Insurance", "Vehicle Registration"]),
   ("Entertainment",
    ["Movies", "Dining Out", "Vacation", "Sports", "Hobbies",
     "Subscriptions", "Netflix", "Spotify", "Gaming", "Books"]),
   ("Shopping",
    ["Clothes", "Electronics", "Gifts", "Jewelry", "Furniture",
     "Home Decor", "Appliances", "Personal Items"]),
   ("Insurance",
    ["Life Insurance", "Health Insurance", "Car Insurance", "Home Insurance",
     "Travel Insurance", "Professional Insurance"]),
   ("Taxes",
    ["Income Tax", "Property Tax", "GST", "Professional Tax",
     "Vehicle Tax", "Other Taxes"]),
   ("Charity",
    ["Donations", "Religious Contributions", "NGO Support", "Community Support"]),
   ("Savings",
    ["SIPs", "Fixed Deposits", "Recurring Deposits", "Emergency Fund",
     "Investment Savings", "Retirement Savings"]),
   ("Other",
    ["Miscellaneous", "Bank Charges", "Legal Fees", "Professional Services",
     "Repairs", "Maintenance"])]

/-- The income category tree of src/data/categories.ts. -/
def INCOME_CATEGORIES : List (String × List String) :=
  [("Salary",
    ["Salary", "Wages", "Bonus", "Overtime", "Commission", "Tips",
     "Freelance Income", "Consulting Income"]),
   ("Dividend",
    ["Dividends", "Interest", "Capital Gains", "Mutual Fund Returns",
     "Stock Profits", "Bond Interest", "Crypto Gains"]),
   ("Rental Income",
    ["Property Rent", "Room Rent", "Commercial Rent", "Parking Rent",
     "Equipment Rental", "Airbnb Income"]),
   ("Business",
    ["Business Profits", "Partnership Income", "Royalties", "Licensing",
     "Product Sales", "Service Income"]),
   ("Other",
    ["Gifts", "Inheritance", "Insurance Claims", "Refunds", "Cashback",
     "Prize Money", "Government Benefits", "Pension"])]

/-- All (category, subcategory) pairs of the taxonomy. -/
def taxonomyPairs : List (String × String) :=
  (EXPENSE_CATEGORIES ++ INCOME_CATEGORIES).flatMap
    (fun p => p.2.map (fun s => (p.1, s)))

/-- Is (c, s) a node of the taxonomy? -/
def inTaxonomy (c s : String) : Bool :=
  taxonomyPairs.contains (c, s)

/-- Gregorian leap year rule (as implemented by the JS Date / date-fns months). -/
def isLeapYear (y : Nat) : Bool :=
  (y % 4 == 0 && y % 100 != 0) || y % 400 == 0

/-- Number of days in a calendar month. -/
def daysInMonth (y m : Nat) : Nat :=
  if m == 2 then (if isLeapYear y then 29 else 28)
  else if m == 4 || m == 6 || m == 9 || m == 11 then 30
  else 31

/-- date-fns startOfMonth at day granularity. -/
def startOfMonthD (month : SDate) : SDate :=
  ⟨month.y, month.m, 1⟩

/-- date-fns endOfMonth at day granularity. -/
def endOfMonthD (month : SDate) : SDate :=
  ⟨month.y, month.m, daysInMonth month.y month.m⟩

/-- The (year, month) pair of a date, the embedding of a yyyy-MM format string. -/
def monthPair (dt : SDate) : Nat × Nat :=
  (dt.y, dt.m)

/-- The month-window filter of calculateMonthlyTotals:
startOfMonth ≤ t.date ≤ endOfMonth, both inclusive. -/
def inMonthB (month : SDate) (t : Tx) : Bool :=
  dateLeB (startOfMonthD month) t.date && dateLeB t.date (endOfMonthD month)

/-- The income-category name list hard-coded in calculateMonthlyTotals for the
budget split. -/
def budgetIncomeList : List String :=
  ["Salary", "Dividend", "Rental Income", "Business", "Other"]

/-- Sum of transaction amounts. -/
def sumAmounts (l : List Tx) : ℚ :=
  (l.map (fun t => t.amount)).sum

/-- Sum of budget amounts. -/
def sumBudgets (l : List Budget) : ℚ :=
  (l.map (fun b => b.amount)).sum

/-- src/utils/calculations.ts calculateMonthlyTotals: filters transactions to
the month window inclusive, sums income and expense amounts separately,
filters budgets to the matching month string and splits them by whether the
category is in the hard-coded income list. -/
def calculateMonthlyTotals (transactions : List Tx) (budgets : List Budget)
    (month : SDate) : MonthlyData :=
  let monthlyTransactions := transactions.filter (inMonthB month)
  let income := sumAmounts (monthlyTransactions.filter (fun t => t.type == TxType.income))
  let expenses := sumAmounts (monthlyTransactions.filter (fun t => t.type == TxType.expense))
  let monthlyBudgets := budgets.filter (fun b => b.month == monthPair month)
  let budgetedIncome := sumBudgets (monthlyBudgets.filter
    (fun b => budgetIncomeList.contains b.category))
  let budgetedExpenses := sumBudgets (monthlyBudgets.filter
    (fun b => !(budgetIncomeList.contains b.category)))
  ⟨monthPair month, income, expenses, budgetedIncome, budgetedExpenses⟩

/-- src/utils/calculations.ts calculateSavingsProgress: total of expense
transactions in the Savings category. -/
def calculateSavingsProgress (transactions : List Tx) : ℚ :=
  sumAmounts (transactions.filter
    (fun t => t.type == TxType.expense && t.category == some ("Savings")))

/-- src/utils/calculations.ts calculateSavingsRate. The expenses argument is
unused in the source as well. -/
def calculateSavingsRate (income expenses savings : ℚ) : ℚ :=
  if income = 0 then 0 else savings / income * 100

/-- Result record of getBudgetVariance. -/
structure BudgetVariance where
  amount : ℚ
  percentage : ℚ
  isOver : Bool
deriving DecidableEq, Repr

/-- src/utils/calculations.ts getBudgetVariance. -/
def getBudgetVariance (actual budget : ℚ) : BudgetVariance :=
  let amount := actual - budget
  let percentage := if 0 < budget then amount / budget * 100 else 0
  ⟨amount, percentage, decide (0 < amount)⟩

/-- Output of one classifier rule: category, subcategory and type. -/
structure CatResult where
  category : String
  subcategory : String
  type : TxType
deriving DecidableEq, Repr

/-- The income keyword list of the fallback classifiers (identical in the
edge function and in the part_010 component). -/
def incomeKeywords : List String :=
  ["salary", "wage", "wages", "bonus", "income", "pay", "paycheck", "payment",
   "dividend", "interest", "rent income", "freelance", "commission", "refund",
   "cashback", "reimbursement", "allowance", "stipend", "pension", "benefits"]

/-- The keyword rule chain of categorizeTransactionsFallback in
supabase/functions/financial-analysis/index.ts (the cited lines 331 to 406),
applied to the lower-cased description. -/
def classifyDesc (dl : String) : CatResult :=
  let c := fun (k : String) => containsStr dl k
  if incomeKeywords.any (fun k => containsStr dl k) then
    if c ("salary") || c ("wage") || c ("bonus") then
      ⟨"Salary", "Salary", TxType.income⟩
    else if c ("dividend") || c ("interest") then
      ⟨"Dividend", "Dividends", TxType.income⟩
    else if c ("rent income") || c ("rental income") then
      ⟨"Rental Income", "Property Rent", TxType.income⟩
    else ⟨"Salary", "Salary", TxType.income⟩
  else if c ("grocery") || c ("maids") || c ("fruits") || c ("vegetables") || c ("food") then
    ⟨"Living Expenses", "Grocery", TxType.expense⟩
  else if c ("house rent") || c ("rent") then
    ⟨"Rental", "House Rent", TxType.expense⟩
  else if c ("car loan") || c ("home loan") || c ("loan") || c ("emi") then
    ⟨"Debt", "Car Loan", TxType.expense⟩
  else if c ("school fees") || c ("tuition") || c ("education") then
    ⟨"Education", "School Fees", TxType.expense⟩
  else if c ("sip") || c ("sips") then
    ⟨"Savings", "SIPs", TxType.expense⟩
  else if c ("gas") || c ("uber") || c ("taxi") || c ("bus") then
    ⟨"Transportation", "Taxi", TxType.expense⟩
  else if c ("movie") || c ("netflix") || c ("spotify") || c ("entertainment") ||
      c ("vacation") || c ("holiday") || c ("restaurant") || c ("dining") then
    ⟨"Entertainment", "Movies", TxType.expense⟩
  else if c ("medical") || c ("doctor") || c ("hospital") || c ("pharmacy") || c ("medicine") then
    ⟨"Healthcare", "Medical Bills", TxType.expense⟩
  else if c ("utilities") || c ("electricity") || c ("water") || c ("gas bill") then
    ⟨"Living Expenses", "Utilities", TxType.expense⟩
  else ⟨"Other", "Miscellaneous", TxType.expense⟩

/-- Writing a rule result back onto a transaction (the object spread in the
source: type, category and subcategory are replaced, all else kept). -/
def applyResult (t : Tx) (r : CatResult) : Tx :=
  { t with type := r.type, category := some r.category, subcategory := some r.subcategory }

/-- categorizeTransactionsFallback of the edge function: classify every
transaction of the list by the keyword rule chain on its lower-cased
description. -/
def categorizeTransactionsFallback (transactions : List Tx) : List Tx :=
  transactions.map (fun t => applyResult t (classifyDesc (lowerStr t.description)))

/-- The keyword rule chain of categorizeTransactionFallback in the part_010
component (same income group; fewer expense groups; the no-match sentinel is
Other / Other). -/
def classifyDescP10 (dl : String) : CatResult :=
  let c := fun (k : String) => containsStr dl k
  if incomeKeywords.any (fun k => containsStr dl k) then
    if c ("salary") || c ("wage") || c ("bonus") then
      ⟨"Salary", "Salary", TxType.income⟩
    else if c ("dividend") || c ("interest") then
      ⟨"Dividend", "Dividends", TxType.income⟩
    else ⟨"Salary", "Salary", TxType.income⟩
  else if c ("grocery") || c ("food") || c ("supermarket") then
    ⟨"Living Expenses", "Grocery", TxType.expense⟩
  else if c ("rent") || c ("rental") then
    ⟨"Rental", "House Rent", TxType.expense⟩
  else if c ("fuel") || c ("gas") || c ("petrol") then
    ⟨"Transportation", "Fuel", TxType.expense⟩
  else if c ("medical") || c ("doctor") || c ("hospital") then
    ⟨"Healthcare", "Medical Bills", TxType.expense⟩
  else if c ("movie") || c ("restaurant") || c ("dining") then
    ⟨"Entertainment", "Dining Out", TxType.expense⟩
  else ⟨"Other", "Other", TxType.expense⟩

/-- part_010 categorizeTransactionFallback on a single transaction. -/
def categorizeTransactionFallback (t : Tx) : Tx :=
  applyResult t (classifyDescP10 (lowerStr t.description))

/-- One AI categorization entry of the batch response. The type field is
optional: the source falls back to the existing type when it is absent. -/
structure AiCat where
  category : String
  subcategory : String
  type : Option TxType
deriving DecidableEq, Repr

/-- The uncategorized filter of categorizeTransactions: a missing, empty or
literal Uncategorized category. -/
def isUncategorizedB (t : Tx) : Bool :=
  match t.category with
  | none => true
  | some s => s.isEmpty || s == "Uncategorized"

/-- Chunking into batches of ten, the batchSize of the source. -/
def chunks10 {α : Type} : List α → List (List α)
  | [] => []
  | a :: l => ((a :: l).take 10) :: chunks10 ((a :: l).drop 10)
termination_by l => l.length
decreasing_by simp; omega

/-- The findIndex-then-replace step of the orchestrator: update the first
transaction with the given id, writing the AI category and subcategory and
taking the AI type when present. -/
def updateById (id0 : String) (r : AiCat) : List Tx → List Tx
  | [] => []
  | t :: rest =>
    if t.id == id0 then
      { t with category := some r.category, subcategory := some r.subcategory,
               type := r.type.getD t.type } :: rest
    else t :: updateById id0 r rest

/-- Applying one batch response positionally: the i-th batch transaction is
updated with the i-th response entry; positions beyond the response length
are skipped, exactly as the truthiness check in the source. -/
def applyBatch : List Tx → List AiCat → List Tx → List Tx
  | [], _, acc => acc
  | _ :: _, [], acc => acc
  | t :: bt, c :: ct, acc => applyBatch bt ct (updateById t.id c acc)

/-- categorizeTransactions of the edge function, the batch classification
orchestrator. The external AI call is a parameter: none models a network
error, a non-OK HTTP status or an unparseable body, all of which the source
turns into a logged continue. -/
def categorizeTransactions (ai : List Tx → Option (List AiCat))
    (transactions : List Tx) : List Tx :=
  let uncategorized := transactions.filter isUncategorizedB
  if uncategorized.isEmpty then transactions
  else
    (chunks10 uncategorized).foldl
      (fun acc batch =>
        match ai batch with
        | none => acc
        | some cats => applyBatch batch cats acc)
      transactions

/-- A constantly failing AI collaborator. -/
def aiNone : List Tx → Option (List AiCat) := fun _ => none

/-- analyzeFinancialData: total income over the transaction set. -/
def anaTotalIncome (ts : List Tx) : ℚ :=
  sumAmounts (ts.filter (fun t => t.type == TxType.income))

/-- analyzeFinancialData: total expenses over the transaction set. -/
def anaTotalExpenses (ts : List Tx) : ℚ :=
  sumAmounts (ts.filter (fun t => t.type == TxType.expense))

/-- analyzeFinancialData: total of expense transactions in the Savings
category (the savingsTransactions accumulator of the source). -/
def anaSavingsTotal (ts : List Tx) : ℚ :=
  sumAmounts (ts.filter
    (fun t => t.type == TxType.expense && t.category == some ("Savings")))

/-- analyzeFinancialData: netWorth is the savings total (the source comment
calls it a simplification). -/
def anaNetWorth (ts : List Tx) : ℚ :=
  anaSavingsTotal ts

/-- analyzeFinancialData: savingsRate, a percentage, zero when income is
not positive. -/
def anaSavingsRate (ts : List Tx) : ℚ :=
  if 0 < anaTotalIncome ts then anaSavingsTotal ts / anaTotalIncome ts * 100 else 0

/-- One entry of the calculateMonthlyTrends result. -/
structure TrendEntry where
  month : Nat × Nat
  income : ℚ
  expenses : ℚ
  surplus : ℚ
deriving DecidableEq, Repr

/-- Keeping the first occurrence of each key, the iteration order of a JS
object built left to right (and of a JS Set): an element is kept when it has
not been seen yet. -/
def dedupFirstAux (seen : List (Nat × Nat)) : List (Nat × Nat) → List (Nat × Nat)
  | [] => []
  | a :: l =>
    if seen.contains a then dedupFirstAux seen l
    else a :: dedupFirstAux (a :: seen) l

/-- The distinct keys of a list in first-occurrence order. -/
def dedupFirst (l : List (Nat × Nat)) : List (Nat × Nat) :=
  dedupFirstAux [] l

/-- Ascending order on (year, month) pairs: the order of yyyy-MM strings
under lexicographic string comparison (zero-padded, four-digit years). -/
def monthLe (a b : Nat × Nat) : Prop :=
  a.1 < b.1 ∨ (a.1 = b.1 ∧ a.2 ≤ b.2)

instance : DecidableRel monthLe := fun a b => by
  unfold monthLe
  exact inferInstance

instance : IsTotal (Nat × Nat) monthLe := by
  constructor
  intro a b
  unfold monthLe
  omega

instance : IsTrans (Nat × Nat) monthLe := by
  constructor
  intro a b c
  unfold monthLe
  omega

/-- Income sum of the transactions falling in a given month key, the grouping
step of calculateMonthlyTrends. -/
def monthIncomeSum (ts : List Tx) (k : Nat × Nat) : ℚ :=
  sumAmounts ((ts.filter (fun t => monthPair t.date == k)).filter
    (fun t => t.type == TxType.income))

/-- Expense sum of the transactions falling in a given month key. The source
adds every non-income transaction to expenses (the else branch). -/
def monthExpenseSum (ts : List Tx) (k : Nat × Nat) : ℚ :=
  sumAmounts ((ts.filter (fun t => monthPair t.date == k)).filter
    (fun t => !(t.type == TxType.income)))

/-- Ascending order on trend entries by month. -/
def trendLe (a b : TrendEntry) : Prop :=
  monthLe a.month b.month

instance : DecidableRel trendLe := fun a b => by
  unfold trendLe monthLe
  exact inferInstance

instance : IsTotal TrendEntry trendLe := by
  constructor
  intro a b
  unfold trendLe monthLe
  omega

instance : IsTrans TrendEntry trendLe := by
  constructor
  intro a b c
  unfold trendLe monthLe
  omega

/-- calculateMonthlyTrends of the edge function: group transactions by month,
list the entries in first-occurrence order, sort ascending by month, keep the
last six. -/
def calculateMonthlyTrends (ts : List Tx) : List TrendEntry :=
  let keys := dedupFirst (ts.map (fun t => monthPair t.date))
  let entries := keys.map (fun k =>
    ({ month := k, income := monthIncomeSum ts k, expenses := monthExpenseSum ts k,
       surplus := monthIncomeSum ts k - monthExpenseSum ts k } : TrendEntry))
  let sorted := List.insertionSort trendLe entries
  sorted.drop (sorted.length - 6)

/-- The investment keyword list of the Dashboard KPI computation. -/
def investmentKeywords : List String :=
  ["sip", "mutual fund", "mf", "stock", "stocks", "equity", "shares", "fd",
   "fixed deposit", "rd", "recurring deposit", "aif", "alternative investment"]

/-- The wealth-building filter of calculateKPIs in Dashboard.tsx: an expense
transaction dated no later than the end of the selected month whose category
is Savings or whose description or subcategory contains an investment
keyword. -/
def isWealthBuildingB (selEnd : SDate) (t : Tx) : Bool :=
  if !(t.type == TxType.expense) || !(dateLeB t.date selEnd) then false
  else if t.category == some ("Savings") then true
  else
    let description := lowerStr t.description
    let subcat := lowerStr (t.subcategory.getD "")
    investmentKeywords.any (fun k =>
      containsStr description k || containsStr subcat k)

/-- The allSavingsTransactions list of calculateKPIs. -/
def allSavingsTxs (ts : List Tx) (sel : SDate) : List Tx :=
  ts.filter (isWealthBuildingB (endOfMonthD sel))

/-- calculateKPIs: netWorth, the cumulative wealth-building outflow. -/
def kpiNetWorth (ts : List Tx) (sel : SDate) : ℚ :=
  sumAmounts (allSavingsTxs ts sel)

/-- calculateKPIs: total income over the transaction set. -/
def kpiTotalIncome (ts : List Tx) : ℚ :=
  sumAmounts (ts.filter (fun t => t.type == TxType.income))

/-- calculateKPIs: totalSavings, the sum over the same allSavingsTransactions
list used by netWorth. -/
def kpiTotalSavings (ts : List Tx) (sel : SDate) : ℚ :=
  sumAmounts (allSavingsTxs ts sel)

/-- calculateKPIs: the savings ratio percentage, zero when income is not
positive. -/
def kpiSavingsPct (ts : List Tx) (sel : SDate) : ℚ :=
  if 0 < kpiTotalIncome ts then kpiTotalSavings ts sel / kpiTotalIncome ts * 100 else 0

/-- One entry of the getMonthsWithData result: the month key plus the
monthlyTotals record of that month. -/
structure MonthEntry where
  month : Nat × Nat
  data : MonthlyData
deriving DecidableEq, Repr

/-- getMonthsWithData of Dashboard.tsx: the distinct months of the data,
sorted ascending, reversed, the first monthCount taken, each mapped to its
calculateMonthlyTotals record (computed at the first of the month). -/
def getMonthsWithData (ts : List Tx) (bs : List Budget) (monthCount : Nat) :
    List MonthEntry :=
  let keys := dedupFirst (ts.map (fun t => monthPair t.date))
  let sortedDesc := (List.insertionSort monthLe keys).reverse
  let chosen := sortedDesc.take monthCount
  chosen.map (fun k => ⟨k, calculateMonthlyTotals ts bs ⟨k.1, k.2, 1⟩⟩)

/-- The expense keyword conditions of the edge function fallback, flattened:
a description matching none of these and no income keyword takes the final
no-match branch. -/
def expenseKeywordsV1 : List String :=
  ["grocery", "maids", "fruits", "vegetables", "food", "house rent", "rent",
   "car loan", "home loan", "loan", "emi", "school fees", "tuition", "education",
   "sip", "sips", "gas", "uber", "taxi", "bus", "movie", "netflix", "spotify",
   "entertainment", "vacation", "holiday", "restaurant", "dining", "medical",
   "doctor", "hospital", "pharmacy", "medicine", "utilities", "electricity",
   "water", "gas bill"]

/-- No rule of the edge function fallback matches the description. -/
def noMatchV1 (dl : String) : Bool :=
  (incomeKeywords ++ expenseKeywordsV1).all (fun k => !(containsStr dl k))

/-- The thirteen possible outputs of the edge function fallback rule chain. -/
def resultsV1 : List CatResult :=
  [⟨"Salary", "Salary", TxType.income⟩,
   ⟨"Dividend", "Dividends", TxType.income⟩,
   ⟨"Rental Income", "Property Rent", TxType.income⟩,
   ⟨"Living Expenses", "Grocery", TxType.expense⟩,
   ⟨"Rental", "House Rent", TxType.expense⟩,
   ⟨"Debt", "Car Loan", TxType.expense⟩,
   ⟨"Education", "School Fees", TxType.expense⟩,
   ⟨"Savings", "SIPs", TxType.expense⟩,
   ⟨"Transportation", "Taxi", TxType.expense⟩,
   ⟨"Entertainment", "Movies", TxType.expense⟩,
   ⟨"Healthcare", "Medical Bills", TxType.expense⟩,
   ⟨"Living Expenses", "Utilities", TxType.expense⟩,
   ⟨"Other", "Miscellaneous", TxType.expense⟩]

/-- The eight possible outputs of the part_010 fallback rule chain. -/
def resultsP10 : List CatResult :=
  [⟨"Salary", "Salary", TxType.income⟩,
   ⟨"Dividend", "Dividends", TxType.income⟩,
   ⟨"Living Expenses", "Grocery", TxType.expense⟩,
   ⟨"Rental", "House Rent", TxType.expense⟩,
   ⟨"Transportation", "Fuel", TxType.expense⟩,
   ⟨"Healthcare", "Medical Bills", TxType.expense⟩,
   ⟨"Entertainment", "Dining Out", TxType.expense⟩,
   ⟨"Other", "Other", TxType.expense⟩]

theorem classifyDesc_mem (dl : String) : classifyDesc dl ∈ resultsV1 := by
  unfold classifyDesc
  dsimp only
  repeat' split
  all_goals decide

theorem classifyDescP10_mem (dl : String) : classifyDescP10 dl ∈ resultsP10 := by
  unfold classifyDescP10
  dsimp only
  repeat' split
  all_goals decide

/-- Description used by the C1 witness. -/
def sipWitnessStr : String := lowerStr ("Monthly SIP contribution")

/-- Transaction used by C1 counterexample: description holding both a savings
keyword and a living-expense keyword. -/
def txSipGrocery : Tx :=
  { id := "t1", date := ⟨2024, 1, 5⟩, description := "Sip grocery", amount := 10,
    category := none, subcategory := none, type := TxType.expense }

/-- C1 counterexample: the description "Sip grocery" holds both the savings
keyword sip and the living-expense keyword grocery, yet the fallback
classifier of the edge function returns Living Expenses, not Savings — the
grocery rule is evaluated before the sip rule. -/
theorem c1_counterexample :
    (categorizeTransactionsFallback [txSipGrocery]).map (fun t => t.category) =
      [some ("Living Expenses")] ∧
    (some ("Living Expenses") : Option String) ≠ some ("Savings") :=
  ⟨rfl, by decide⟩

/-- C1 (amended): the income keyword group is strictly first (any description
holding an income keyword classifies as income, wherever the keyword occurs),
and the sip savings rule is evaluated after the grocery/food, rent, loan/EMI
and education groups: a description holding sip and none of the income,
grocery-group, rent, loan or education keywords classifies as Savings/SIPs. -/
theorem c1_precedence (dl : String)
    (hsip : containsStr dl ("sip") = true)
    (hinc : incomeKeywords.any (fun k => containsStr dl k) = false)
    (hgro : (containsStr dl ("grocery") || containsStr dl ("maids") ||
      containsStr dl ("fruits") || containsStr dl ("vegetables") ||
      containsStr dl ("food")) = false)
    (hrent : (containsStr dl ("house rent") || containsStr dl ("rent")) = false)
    (hloan : (containsStr dl ("car loan") || containsStr dl ("home loan") ||
      containsStr dl ("loan") || containsStr dl ("emi")) = false)
    (hedu : (containsStr dl ("school fees") || containsStr dl ("tuition") ||
      containsStr dl ("education")) = false) :
    (∀ d2 : String, incomeKeywords.any (fun k => containsStr d2 k) = true →
      (classifyDesc d2).type = TxType.income) ∧
    (classifyDesc dl).category = "Savings" ∧ (classifyDesc dl).subcategory = "SIPs" := by
  refine ⟨?_, ?_, ?_⟩
  · intro d2 h
    simp only [classifyDesc]
    simp only [h, if_true]
    repeat' split
    all_goals rfl
  · simp [classifyDesc, hinc, hgro, hrent, hloan, hedu, hsip]
  · simp [classifyDesc, hinc, hgro, hrent, hloan, hedu, hsip]

/-- C1 witness: the sip-only description "Monthly SIP contribution" satisfies
every hypothesis and classifies as Savings/SIPs. -/
theorem c1_witness :
    containsStr sipWitnessStr ("sip") = true ∧
    ((∀ d2 : String, incomeKeywords.any (fun k => containsStr d2 k) = true →
        (classifyDesc d2).type = TxType.income) ∧
      (classifyDesc sipWitnessStr).category = "Savings" ∧
      (classifyDesc sipWitnessStr).subcategory = "SIPs") :=
  ⟨by decide, c1_precedence sipWitnessStr (by decide) (by decide) (by decide)
    (by decide) (by decide) (by decide)⟩

/-- Transaction used by the C5 counterexample: an empty description. -/
def txEmptyDesc : Tx :=
  { id := "t0", date := ⟨2024, 1, 1⟩, description := "", amount := 5,
    category := none, subcategory := none, type := TxType.expense }

/-- C5 counterexample: the part_010 fallback classifier returns the sentinel
Other / Other on an unmatched (empty) description, not the claimed
Other / Miscellaneous pair. -/
theorem c5_counterexample :
    (categorizeTransactionFallback txEmptyDesc).subcategory = some ("Other") ∧
    (some ("Other") : Option String) ≠ some ("Miscellaneous") :=
  ⟨rfl, by decide⟩

/-- C5 (amended): both keyword classifiers are total — every result has type
income or expense; the edge function classifier always returns a taxonomy
pair and returns exactly Other / Miscellaneous / expense on unmatched input;
the part_010 classifier returns a taxonomy pair except that its unmatched
sentinel is Other / Other. -/
theorem c5_totality :
    (∀ dl : String,
      ((classifyDesc dl).type = TxType.income ∨ (classifyDesc dl).type = TxType.expense) ∧
      inTaxonomy (classifyDesc dl).category (classifyDesc dl).subcategory = true ∧
      ((classifyDescP10 dl).type = TxType.income ∨ (classifyDescP10 dl).type = TxType.expense) ∧
      (inTaxonomy (classifyDescP10 dl).category (classifyDescP10 dl).subcategory = true ∨
        ((classifyDescP10 dl).category = "Other" ∧ (classifyDescP10 dl).subcategory = "Other"))) ∧
    (∀ dl : String, noMatchV1 dl = true →
      classifyDesc dl = ⟨"Other", "Miscellaneous", TxType.expense⟩) := by
  constructor
  · intro dl
    have h1 := classifyDesc_mem dl
    have h2 := classifyDescP10_mem dl
    have k1 : ∀ r ∈ resultsV1,
        (r.type = TxType.income ∨ r.type = TxType.expense) ∧
        inTaxonomy r.category r.subcategory = true := by decide
    have k2 : ∀ r ∈ resultsP10,
        (r.type = TxType.income ∨ r.type = TxType.expense) ∧
        (inTaxonomy r.category r.subcategory = true ∨
          (r.category = "Other" ∧ r.subcategory = "Other")) := by decide
    obtain ⟨ha, hb⟩ := k1 _ h1
    obtain ⟨hc, hd⟩ := k2 _ h2
    exact ⟨ha, hb, hc, hd⟩
  · intro dl hnm
    have hall : ∀ k ∈ incomeKeywords ++ expenseKeywordsV1, containsStr dl k = false := by
      intro k hk
      have := List.all_eq_true.mp hnm k hk
      simpa using this
    have hi : incomeKeywords.any (fun k => containsStr dl k) = false := by
      refine List.any_eq_false.mpr ?_
      intro k hk
      simp [hall k (List.mem_append_left _ hk)]
    simp [classifyDesc, hi,
      hall ("grocery") (by decide), hall ("maids") (by decide),
      hall ("fruits") (by decide), hall ("vegetables") (by decide),
      hall ("food") (by decide), hall ("house rent") (by decide),
      hall ("rent") (by decide), hall ("car loan") (by decide),
      hall ("home loan") (by decide), hall ("loan") (by decide),
      hall ("emi") (by decide), hall ("school fees") (by decide),
      hall ("tuition") (by decide), hall ("education") (by decide),
      hall ("sip") (by decide), hall ("sips") (by decide),
      hall ("gas") (by decide), hall ("uber") (by decide),
      hall ("taxi") (by decide), hall ("bus") (by decide),
      hall ("movie") (by decide), hall ("netflix") (by decide),
      hall ("spotify") (by decide), hall ("entertainment") (by decide),
      hall ("vacation") (by decide), hall ("holiday") (by decide),
      hall ("restaurant") (by decide), hall ("dining") (by decide),
      hall ("medical") (by decide), hall ("doctor") (by decide),
      hall ("hospital") (by decide), hall ("pharmacy") (by decide),
      hall ("medicine") (by decide), hall ("utilities") (by decide),
      hall ("electricity") (by decide), hall ("water") (by decide),
      hall ("gas bill") (by decide)]

/-- C5 witness: the empty description matches no rule and the edge function
classifier returns the Other / Miscellaneous / expense sentinel on it. -/
theorem c5_witness :
    noMatchV1 ("") = true ∧
    classifyDesc ("") = ⟨"Other", "Miscellaneous", TxType.expense⟩ :=
  ⟨by decide, c5_totality.2 ("") (by decide)⟩

/-- C7: getBudgetVariance returns amount = actual − budget; percentage is
amount/budget·100 when the budget is positive and 0 otherwise — in
particular percentage is exactly 0 for a zero budget, never an undefined
division result; isOver holds exactly when amount is positive. -/
theorem c7_budget_variance_safe (actual budget : ℚ) :
    (getBudgetVariance actual 0).percentage = 0 ∧
    (getBudgetVariance actual budget).amount = actual - budget ∧
    (getBudgetVariance actual budget).percentage =
      (if 0 < budget then (actual - budget) / budget * 100 else 0) ∧
    (getBudgetVariance actual budget).isOver = decide (0 < actual - budget) := by
  refine ⟨?_, rfl, rfl, rfl⟩
  simp [getBudgetVariance]

/-- C9 counterexample: the category name Other is a key of both the expense
tree and the income tree, so the two trees are not disjoint. -/
theorem c9_counterexample :
    ("Other" ∈ EXPENSE_CATEGORIES.map Prod.fst) ∧
    ("Other" ∈ INCOME_CATEGORIES.map Prod.fst) := by
  constructor <;> decide

/-- C9 (amended): the expense and income category trees are disjoint except
for the single shared category name Other: the expense-tree keys also
occurring as income-tree keys are exactly the one-element list containing
Other, so category membership determines income versus expense for every
category except Other. -/
theorem c9_trees_overlap_only_other :
    (EXPENSE_CATEGORIES.map Prod.fst).filter
      (fun c => (INCOME_CATEGORIES.map Prod.fst).contains c) = ["Other"] := by
  decide

/-- Description used by the C10 witness. -/
def paymentStr : String := lowerStr ("credit card payment")

/-- C10: any description containing pay, payment or income is classified as
income by both fallback classifiers (it can never reach an expense rule),
and lands on Salary / Salary unless one of the more specific income
sub-branches (salary/wage/bonus, dividend/interest, rent income) matches. -/
theorem c10_pay_is_income (dl : String)
    (hpay : (containsStr dl ("pay") || containsStr dl ("payment") ||
      containsStr dl ("income")) = true) :
    (classifyDesc dl).type = TxType.income ∧
    (classifyDescP10 dl).type = TxType.income ∧
    (((containsStr dl ("salary") || containsStr dl ("wage") ||
        containsStr dl ("bonus")) = false ∧
      (containsStr dl ("dividend") || containsStr dl ("interest")) = false ∧
      (containsStr dl ("rent income") || containsStr dl ("rental income")) = false) →
      (classifyDesc dl).category = "Salary" ∧ (classifyDesc dl).subcategory = "Salary" ∧
      (classifyDescP10 dl).category = "Salary" ∧
      (classifyDescP10 dl).subcategory = "Salary") := by
  have hany : incomeKeywords.any (fun k => containsStr dl k) = true := by
    cases hp : containsStr dl ("pay") with
    | true => exact List.any_eq_true.mpr ⟨"pay", by decide, hp⟩
    | false =>
      cases hq : containsStr dl ("payment") with
      | true => exact List.any_eq_true.mpr ⟨"payment", by decide, hq⟩
      | false =>
        cases hr : containsStr dl ("income") with
        | true => exact List.any_eq_true.mpr ⟨"income", by decide, hr⟩
        | false => simp [hp, hq, hr] at hpay
  refine ⟨?_, ?_, ?_⟩
  · simp only [classifyDesc]
    simp only [hany, if_true]
    repeat' split
    all_goals rfl
  · simp only [classifyDescP10]
    simp only [hany, if_true]
    repeat' split
    all_goals rfl
  · rintro ⟨h1, h2, h3⟩
    refine ⟨?_, ?_, ?_, ?_⟩ <;>
      simp [classifyDesc, classifyDescP10, hany, h1, h2, h3]

/-- C10 witness: the description "credit card payment" holds the income
keyword pay and no specific income sub-branch keyword, so both classifiers
return income with Salary / Salary. -/
theorem c10_witness :
    (containsStr paymentStr ("pay") || containsStr paymentStr ("payment") ||
      containsStr paymentStr ("income")) = true ∧
    ((classifyDesc paymentStr).type = TxType.income ∧
      (classifyDescP10 paymentStr).type = TxType.income ∧
      (((containsStr paymentStr ("salary") || containsStr paymentStr ("wage") ||
          containsStr paymentStr ("bonus")) = false ∧
        (containsStr paymentStr ("dividend") ||
          containsStr paymentStr ("interest")) = false ∧
        (containsStr paymentStr ("rent income") ||
          containsStr paymentStr ("rental income")) = false) →
        (classifyDesc paymentStr).category = "Salary" ∧
        (classifyDesc paymentStr).subcategory = "Salary" ∧
        (classifyDescP10 paymentStr).category = "Salary" ∧
        (classifyDescP10 paymentStr).subcategory = "Salary")) :=
  ⟨by decide, c10_pay_is_income paymentStr (by decide)⟩

theorem beq_income_income : (TxType.income == TxType.income) = true := rfl

theorem beq_expense_income : (TxType.expense == TxType.income) = false := rfl

theorem beq_income_expense : (TxType.income == TxType.expense) = false := rfl

theorem beq_expense_expense : (TxType.expense == TxType.expense) = true := rfl

theorem sum_map_filter_add {α : Type} (f : α → ℚ) (p : α → Bool) (l : List α) :
    ((l.filter p).map f).sum + ((l.filter (fun x => !(p x))).map f).sum =
      (l.map f).sum := by
  induction l with
  | nil => simp
  | cons a l ih =>
    cases hp : p a
    · simp only [List.filter_cons, hp, Bool.not_false, if_true, if_false,
        Bool.false_eq_true, ite_false, ite_true, List.map_cons, List.sum_cons]
      linarith [ih]
    · simp only [List.filter_cons, hp, Bool.not_true, Bool.false_eq_true,
        ite_false, ite_true, List.map_cons, List.sum_cons]
      linarith [ih]

/-- Budget used by the C3 counterexample: its category belongs to neither
tree of the taxonomy. -/
def badBudget : Budget := { category := "Gadgets", amount := 100, month := (2024, 1) }

/-- C3 counterexample: a budget whose category Gadgets is outside both
taxonomy trees is counted in budgetedExpenses (with full weight 100), not
excluded from the budgeted split. -/
theorem c3_counterexample :
    (calculateMonthlyTotals [] [badBudget] ⟨2024, 1, 15⟩).budgetedExpenses = 100 ∧
    ((EXPENSE_CATEGORIES.map Prod.fst).contains ("Gadgets") = false ∧
      (INCOME_CATEGORIES.map Prod.fst).contains ("Gadgets") = false) ∧
    (100 : ℚ) ≠ 0 := by
  refine ⟨?_, by decide, by norm_num⟩
  simp [calculateMonthlyTotals, sumBudgets, budgetIncomeList, monthPair,
    List.filter, badBudget]

/-- C3 (amended): budgetedIncome sums exactly the month's budgets whose
category is one of the five income-tree keys (Salary, Dividend, Rental
Income, Business, Other); budgetedExpenses sums every other budget of the
month — including budgets for categories outside the taxonomy — so the two
splits always add up to the month's total budgeted amount. -/
theorem c3_budget_split (ts : List Tx) (bs : List Budget) (month : SDate) :
    (calculateMonthlyTotals ts bs month).budgetedIncome =
      sumBudgets ((bs.filter (fun b => b.month == monthPair month)).filter
        (fun b => budgetIncomeList.contains b.category)) ∧
    (calculateMonthlyTotals ts bs month).budgetedIncome +
      (calculateMonthlyTotals ts bs month).budgetedExpenses =
      sumBudgets (bs.filter (fun b => b.month == monthPair month)) := by
  refine ⟨rfl, ?_⟩
  show sumBudgets _ + sumBudgets _ = sumBudgets _
  unfold sumBudgets
  exact @sum_map_filter_add Budget (fun b => b.amount)
    (fun b => budgetIncomeList.contains b.category) _

theorem updateById_map_id (id0 : String) (r : AiCat) (l : List Tx) :
    (updateById id0 r l).map (fun t => t.id) = l.map (fun t => t.id) := by
  induction l with
  | nil => rfl
  | cons t rest ih =>
    simp only [updateById]
    split
    · simp
    · simp [ih]

theorem applyBatch_map_id (batch : List Tx) (cats : List AiCat) (acc : List Tx) :
    (applyBatch batch cats acc).map (fun t => t.id) = acc.map (fun t => t.id) := by
  induction batch generalizing cats acc with
  | nil => rfl
  | cons t bt ih =>
    cases cats with
    | nil => rfl
    | cons c ct =>
      show (applyBatch bt ct (updateById t.id c acc)).map _ = _
      rw [ih, updateById_map_id]

theorem foldl_batches_map_id (ai : List Tx → Option (List AiCat))
    (chs : List (List Tx)) (acc : List Tx) :
    (chs.foldl
      (fun acc batch =>
        match ai batch with
        | none => acc
        | some cats => applyBatch batch cats acc)
      acc).map (fun t => t.id) = acc.map (fun t => t.id) := by
  induction chs generalizing acc with
  | nil => rfl
  | cons b rest ih =>
    simp only [List.foldl_cons]
    cases hai : ai b with
    | none => exact ih acc
    | some cats =>
      rw [ih]
      exact applyBatch_map_id b cats acc

theorem categorizeTransactions_aiNone (ts : List Tx) :
    categorizeTransactions aiNone ts = ts := by
  simp only [categorizeTransactions]
  split
  · rfl
  · have hfix : ∀ (chs : List (List Tx)) (acc : List Tx),
        chs.foldl
          (fun acc batch =>
            match aiNone batch with
            | none => acc
            | some cats => applyBatch batch cats acc)
          acc = acc := by
      intro chs
      induction chs with
      | nil => intro acc; rfl
      | cons b r ih => intro acc; exact ih acc
    exact hfix _ ts

/-- Transaction used by the C4 counterexample: an uncategorized grocery
purchase the keyword fallback would classify as Living Expenses. -/
def txGrocery : Tx :=
  { id := "g1", date := ⟨2024, 1, 2⟩, description := "grocery shopping", amount := 20,
    category := none, subcategory := none, type := TxType.expense }

/-- C4 counterexample: when the AI call fails, the batch loop continues and
the uncategorized transaction is returned unchanged — category still none —
whereas the keyword fallback classifier would return Living Expenses; the
failed batch is not fallback-classified. -/
theorem c4_counterexample :
    (categorizeTransactions aiNone [txGrocery]).map (fun t => t.category) = [none] ∧
    (categorizeTransactionsFallback [txGrocery]).map (fun t => t.category) =
      [some ("Living Expenses")] ∧
    ([none] : List (Option String)) ≠ [some ("Living Expenses")] := by
  refine ⟨?_, rfl, by decide⟩
  rw [categorizeTransactions_aiNone]
  rfl

/-- C4 (amended): the orchestrator is total and never drops a transaction —
the result always carries exactly the input ids in order — but on AI failure
the transactions of the failed batch are returned unchanged (still
uncategorized); the keyword fallback is not applied inside
categorizeTransactions. -/
theorem c4_failure_keeps_input (ai : List Tx → Option (List AiCat)) (ts : List Tx) :
    (categorizeTransactions ai ts).map (fun t => t.id) = ts.map (fun t => t.id) ∧
    categorizeTransactions aiNone ts = ts := by
  constructor
  · simp only [categorizeTransactions]
    split
    · rfl
    · exact foldl_batches_map_id ai _ ts
  · exact categorizeTransactions_aiNone ts

/-- Income transaction of the C6 witness. -/
def txIncomeW : Tx :=
  { id := "i1", date := ⟨2024, 1, 15⟩, description := "jan salary", amount := 1000,
    category := some ("Salary"), subcategory := some ("Salary"), type := TxType.income }

/-- Savings transaction of the C6 witness. -/
def txSavingsW : Tx :=
  { id := "s1", date := ⟨2024, 1, 25⟩, description := "monthly deposit", amount := 100,
    category := some ("Savings"), subcategory := some ("SIPs"), type := TxType.expense }

/-- Transactions of the C6 witness. -/
def tsC6 : List Tx := [txIncomeW, txSavingsW]

/-- C6: in each module the savings amount behind netWorth and the one behind
the savings rate are the same sum, so whenever total income is positive the
savings-rate percentage equals netWorth divided by total income times 100:
in the Dashboard KPIs (keyword-extended wealth-building filter), in
analyzeFinancialData (Savings-category filter), and for
calculateSavingsProgress fed into calculateSavingsRate, which both reuse the
Savings-category sum of analyzeFinancialData. -/
theorem c6_networth_rate_agree (ts : List Tx) (sel : SDate) (e : ℚ)
    (h : 0 < kpiTotalIncome ts) :
    kpiSavingsPct ts sel = kpiNetWorth ts sel / kpiTotalIncome ts * 100 ∧
    anaSavingsRate ts = anaNetWorth ts / anaTotalIncome ts * 100 ∧
    calculateSavingsProgress ts = anaNetWorth ts ∧
    calculateSavingsRate (anaTotalIncome ts) e (calculateSavingsProgress ts) =
      anaNetWorth ts / anaTotalIncome ts * 100 := by
  have h2 : 0 < anaTotalIncome ts := h
  refine ⟨?_, ?_, rfl, ?_⟩
  · unfold kpiSavingsPct
    rw [if_pos h]
    rfl
  · unfold anaSavingsRate
    rw [if_pos h2]
    rfl
  · unfold calculateSavingsRate
    rw [if_neg (ne_of_gt h2)]
    rfl

/-- C6 witness: one 1000 income and one 100 Savings expense in January 2024;
total income is positive and all four consistency equations hold. -/
theorem c6_witness :
    0 < kpiTotalIncome tsC6 ∧
    (kpiSavingsPct tsC6 ⟨2024, 1, 31⟩ =
        kpiNetWorth tsC6 ⟨2024, 1, 31⟩ / kpiTotalIncome tsC6 * 100 ∧
      anaSavingsRate tsC6 = anaNetWorth tsC6 / anaTotalIncome tsC6 * 100 ∧
      calculateSavingsProgress tsC6 = anaNetWorth tsC6 ∧
      calculateSavingsRate (anaTotalIncome tsC6) 0 (calculateSavingsProgress tsC6) =
        anaNetWorth tsC6 / anaTotalIncome tsC6 * 100) :=
  have hpos : 0 < kpiTotalIncome tsC6 := by
    norm_num [kpiTotalIncome, sumAmounts, tsC6, txIncomeW, txSavingsW,
      List.filter, beq_income_income, beq_expense_income]
  ⟨hpos, c6_networth_rate_agree tsC6 ⟨2024, 1, 31⟩ 0 hpos⟩

theorem bool_eq_of_iff {a b : Bool} (h : a = true ↔ b = true) : a = b := by
  cases a <;> cases b <;> simp_all

/-- A date with a valid day-of-month (as every JS Date has). -/
def validDate (dt : SDate) : Prop :=
  1 ≤ dt.d ∧ dt.d ≤ daysInMonth dt.y dt.m

instance : ∀ dt, Decidable (validDate dt) := fun dt => by
  unfold validDate
  exact inferInstance

theorem inRange_eq (Y Mo D y m d : Nat) (h1 : 1 ≤ d)
    (h2 : d ≤ daysInMonth y m) :
    (dateLeB (startOfMonthD ⟨Y, Mo, D⟩) ⟨y, m, d⟩ &&
      dateLeB (⟨y, m, d⟩ : SDate) (endOfMonthD ⟨Y, Mo, D⟩)) =
      (monthPair ⟨y, m, d⟩ == monthPair ⟨Y, Mo, D⟩) := by
  apply bool_eq_of_iff
  simp only [dateLeB, startOfMonthD, endOfMonthD, monthPair, Bool.and_eq_true,
    Bool.or_eq_true, decide_eq_true_eq, beq_iff_eq, Prod.mk.injEq]
  by_cases hy : y = Y
  · subst hy
    by_cases hm : m = Mo
    · subst hm
      omega
    · omega
  · omega

theorem inMonthB_eq_monthPair (M : SDate) (t : Tx) (h1 : 1 ≤ t.date.d)
    (h2 : t.date.d ≤ daysInMonth t.date.y t.date.m) :
    inMonthB M t = (monthPair t.date == monthPair M) := by
  unfold inMonthB
  exact inRange_eq M.y M.m M.d t.date.y t.date.m t.date.d h1 h2

theorem sumAmounts_type_split (l : List Tx) :
    sumAmounts (l.filter (fun t => t.type == TxType.income)) +
      sumAmounts (l.filter (fun t => t.type == TxType.expense)) = sumAmounts l := by
  have hcongr : l.filter (fun t => t.type == TxType.expense) =
      l.filter (fun t => !(t.type == TxType.income)) := by
    apply List.filter_congr
    intro t _
    cases t.type <;> rfl
  rw [hcongr]
  unfold sumAmounts
  exact @sum_map_filter_add Tx (fun t => t.amount)
    (fun t => t.type == TxType.income) l

theorem sumAmounts_filter_cons (t : Tx) (l : List Tx) (p : Tx → Bool) :
    sumAmounts ((t :: l).filter p) =
      (if p t then t.amount else 0) + sumAmounts (l.filter p) := by
  cases hp : p t <;> simp [List.filter_cons, hp, sumAmounts]

theorem sum_months_partition (ts : List Tx) (K : Finset (Nat × Nat))
    (hK : ∀ t ∈ ts, monthPair t.date ∈ K) :
    (∑ k in K, sumAmounts (ts.filter (fun t => monthPair t.date == k))) =
      sumAmounts ts := by
  induction ts with
  | nil => simp [sumAmounts]
  | cons t l ih =>
    have ht : monthPair t.date ∈ K := hK t (by simp)
    have ihl := ih (fun x hx => hK x (List.mem_cons_of_mem _ hx))
    calc (∑ k in K, sumAmounts ((t :: l).filter (fun x => monthPair x.date == k)))
        = ∑ k in K, ((if (monthPair t.date == k) then t.amount else 0) +
            sumAmounts (l.filter (fun x => monthPair x.date == k))) := by
          refine Finset.sum_congr rfl ?_
          intro k _
          exact sumAmounts_filter_cons t l _
      _ = (∑ k in K, (if (monthPair t.date == k) then t.amount else 0)) +
            ∑ k in K, sumAmounts (l.filter (fun x => monthPair x.date == k)) :=
          Finset.sum_add_distrib
      _ = t.amount + sumAmounts l := by
          rw [ihl]
          congr 1
          have hcond : (∑ k in K, if (monthPair t.date == k) then t.amount else 0) =
              ∑ k in K, if monthPair t.date = k then t.amount else 0 := by
            refine Finset.sum_congr rfl ?_
            intro k _
            by_cases h : monthPair t.date = k <;> simp [h]
          rw [hcond, Finset.sum_ite_eq]
          simp [ht]
      _ = sumAmounts (t :: l) := by simp [sumAmounts]

/-- C2: summing income plus expenses of calculateMonthlyTotals over the
calendar months occurring in the data equals the sum of all transaction
amounts — the inclusive [startOfMonth, endOfMonth] filter neither
double-counts nor drops a transaction across month boundaries. -/
theorem c2_partition_conserves (ts : List Tx) (bs : List Budget)
    (hv : ∀ t ∈ ts, validDate t.date) :
    (∑ k in (ts.map (fun t => monthPair t.date)).toFinset,
      ((calculateMonthlyTotals ts bs ⟨k.1, k.2, 1⟩).income +
        (calculateMonthlyTotals ts bs ⟨k.1, k.2, 1⟩).expenses)) =
      (ts.map (fun t => t.amount)).sum := by
  have hstep : ∀ k : Nat × Nat,
      (calculateMonthlyTotals ts bs ⟨k.1, k.2, 1⟩).income +
        (calculateMonthlyTotals ts bs ⟨k.1, k.2, 1⟩).expenses =
        sumAmounts (ts.filter (fun t => monthPair t.date == k)) := by
    intro k
    have hfil : ts.filter (inMonthB ⟨k.1, k.2, 1⟩) =
        ts.filter (fun t => monthPair t.date == k) := by
      apply List.filter_congr
      intro t htmem
      have hvt := hv t htmem
      rw [inMonthB_eq_monthPair ⟨k.1, k.2, 1⟩ t hvt.1 hvt.2]
      rfl
    show sumAmounts ((ts.filter (inMonthB ⟨k.1, k.2, 1⟩)).filter
        (fun t => t.type == TxType.income)) +
      sumAmounts ((ts.filter (inMonthB ⟨k.1, k.2, 1⟩)).filter
        (fun t => t.type == TxType.expense)) = _
    rw [sumAmounts_type_split, hfil]
  rw [Finset.sum_congr rfl (fun k _ => hstep k)]
  exact sum_months_partition ts _ (by
    intro t ht
    simp only [List.mem_toFinset, List.mem_map]
    exact ⟨t, ht, rfl⟩)

/-- Transactions of the C2 witness: one per month across two months. -/
def tsC2 : List Tx :=
  [{ id := "w1", date := ⟨2024, 1, 10⟩, description := "a", amount := 3,
     category := none, subcategory := none, type := TxType.income },
   { id := "w2", date := ⟨2024, 2, 20⟩, description := "b", amount := 4,
     category := none, subcategory := none, type := TxType.expense }]

/-- C2 witness: two transactions in two different months with valid dates;
the month-partitioned totals add up to the total amount. -/
theorem c2_witness :
    (∀ t ∈ tsC2, validDate t.date) ∧
    (∑ k in (tsC2.map (fun t => monthPair t.date)).toFinset,
      ((calculateMonthlyTotals tsC2 [] ⟨k.1, k.2, 1⟩).income +
        (calculateMonthlyTotals tsC2 [] ⟨k.1, k.2, 1⟩).expenses)) =
      (tsC2.map (fun t => t.amount)).sum :=
  ⟨by decide, c2_partition_conserves tsC2 [] (by decide)⟩

theorem dedupFirstAux_subset (l : List (Nat × Nat)) :
    ∀ (seen : List (Nat × Nat)), ∀ x ∈ dedupFirstAux seen l, x ∈ l := by
  induction l with
  | nil =>
    intro seen x hx
    cases hx
  | cons a r ih =>
    intro seen x hx
    simp only [dedupFirstAux] at hx
    split at hx
    · exact List.mem_cons_of_mem _ (ih seen x hx)
    · rcases List.mem_cons.mp hx with h | h
      · exact h ▸ List.mem_cons_self _ _
      · exact List.mem_cons_of_mem _ (ih (a :: seen) x h)

/-- Transactions of the C8 counterexample and witness: one January and one
February 2024 transaction. -/
def tsC8 : List Tx :=
  [{ id := "a", date := ⟨2024, 1, 10⟩, description := "x", amount := 5,
     category := none, subcategory := none, type := TxType.income },
   { id := "b", date := ⟨2024, 2, 10⟩, description := "y", amount := 7,
     category := none, subcategory := none, type := TxType.expense }]

/-- C8 counterexample: with data in January and February 2024, Dashboard's
getMonthsWithData returns February before January — newest first, not
oldest to newest as claimed. -/
theorem c8_counterexample :
    ((getMonthsWithData tsC8 [] 6).map (fun e => e.month)) = [(2024, 2), (2024, 1)] ∧
    ¬ monthLe (2024, 2) (2024, 1) := by
  constructor
  · decide
  · simp [monthLe]

/-- C8 (amended): both trend views return one entry per month that actually
holds a transaction, at most N of them (N = 6 for the edge function), but
their orders differ: Dashboard's getMonthsWithData is sorted newest to
oldest, while calculateMonthlyTrends of the edge function is sorted oldest
to newest. -/
theorem c8_trend_months (ts : List Tx) (bs : List Budget) (n : Nat) :
    List.Sorted (fun a b => monthLe b a)
      ((getMonthsWithData ts bs n).map (fun e => e.month)) ∧
    (∀ k ∈ (getMonthsWithData ts bs n).map (fun e => e.month),
      k ∈ ts.map (fun t => monthPair t.date)) ∧
    (getMonthsWithData ts bs n).length =
      min n (dedupFirst (ts.map (fun t => monthPair t.date))).length ∧
    List.Sorted trendLe (calculateMonthlyTrends ts) ∧
    (∀ e ∈ calculateMonthlyTrends ts, e.month ∈ ts.map (fun t => monthPair t.date)) ∧
    (calculateMonthlyTrends ts).length =
      min 6 (dedupFirst (ts.map (fun t => monthPair t.date))).length := by
  have hkeysub : ∀ x ∈ dedupFirst (ts.map (fun t => monthPair t.date)),
      x ∈ ts.map (fun t => monthPair t.date) :=
    dedupFirstAux_subset _ []
  have hsortA : List.Sorted monthLe
      (List.insertionSort monthLe (dedupFirst (ts.map (fun t => monthPair t.date)))) :=
    List.sorted_insertionSort monthLe _
  have hsortT : List.Sorted trendLe
      (List.insertionSort trendLe
        ((dedupFirst (ts.map (fun t => monthPair t.date))).map (fun k =>
          ({ month := k, income := monthIncomeSum ts k,
             expenses := monthExpenseSum ts k,
             surplus := monthIncomeSum ts k - monthExpenseSum ts k } : TrendEntry)))) :=
    List.sorted_insertionSort trendLe _
  refine ⟨?_, ?_, ?_, ?_, ?_, ?_⟩
  · simp only [getMonthsWithData, List.map_map]
    have hrev : List.Pairwise (fun a b => monthLe b a)
        (List.insertionSort monthLe
          (dedupFirst (ts.map (fun t => monthPair t.date)))).reverse :=
      List.pairwise_reverse.mpr hsortA
    have hfun : ((fun (e : MonthEntry) => e.month) ∘ (fun k =>
        ({ month := k,
           data := calculateMonthlyTotals ts bs ⟨k.1, k.2, 1⟩ } : MonthEntry))) =
        fun k => k := rfl
    rw [hfun, List.map_id']
    exact List.Pairwise.sublist (List.take_sublist _ _) hrev
  · intro k hk
    simp only [getMonthsWithData, List.map_map, List.mem_map] at hk
    obtain ⟨k2, hk2, hek⟩ := hk
    have hk3 : k2 ∈ (List.insertionSort monthLe
        (dedupFirst (ts.map (fun t => monthPair t.date)))).reverse :=
      List.mem_of_mem_take hk2
    rw [List.mem_reverse] at hk3
    have hk4 := (List.perm_insertionSort monthLe _).mem_iff.mp hk3
    have := hkeysub k2 hk4
    simpa [← hek] using this
  · simp [getMonthsWithData, List.length_take, List.length_reverse,
      List.length_insertionSort]
  · unfold calculateMonthlyTrends
    exact List.Pairwise.sublist (List.drop_sublist _ _) hsortT
  · intro e he
    unfold calculateMonthlyTrends at he
    have he2 := List.mem_of_mem_drop he
    have he3 := (List.perm_insertionSort trendLe _).mem_iff.mp he2
    simp only [List.mem_map] at he3
    obtain ⟨k2, hk2, hek⟩ := he3
    have := hkeysub k2 hk2
    rw [← hek]
    simpa using this
  · simp only [calculateMonthlyTrends, List.length_drop,
      List.length_insertionSort, List.length_map]
    omega

/-- C8 witness: February 2024 is among the months getMonthsWithData returns
for the two-month data set, and it indeed holds a transaction. -/
theorem c8_witness :
    ((2024, 2) ∈ (getMonthsWithData tsC8 [] 6).map (fun e => e.month)) ∧
    ((2024, 2) ∈ tsC8.map (fun t => monthPair t.date)) :=
  ⟨by decide, (c8_trend_months tsC8 [] 6).2.1 (2024, 2) (by decide)⟩

end FinTrack
